import Mathlib

/-!
Shallow embedding of the window-management core of the weston compositor:
the interactive move/resize entry points and grab motion handlers, the
maximize placement helpers, fullscreen-layer lowering, keyboard-focus
retargeting and the helper-client respawn policy from
src/desktop-shell/shell.c, and desktop-surface destruction plus the
metadata setters from src/libweston/desktop/surface.c.
-/

namespace Weston

/-- Modelled from the spec: the libweston-desktop public header declaring
`enum weston_desktop_surface_edge` is not under src/. The spec describes
four resize edges (TOP, BOTTOM, LEFT, RIGHT) combined as a bit mask in
which unions of opposite edges such as "LEFT|RIGHT" are expressible but
invalid; the values are the standard Wayland resize-edge bits. -/
def WESTON_DESKTOP_SURFACE_EDGE_NONE : Nat := 0

/-- Top resize edge bit (see `WESTON_DESKTOP_SURFACE_EDGE_NONE`). -/
def WESTON_DESKTOP_SURFACE_EDGE_TOP : Nat := 1

/-- Bottom resize edge bit (see `WESTON_DESKTOP_SURFACE_EDGE_NONE`). -/
def WESTON_DESKTOP_SURFACE_EDGE_BOTTOM : Nat := 2

/-- Left resize edge bit (see `WESTON_DESKTOP_SURFACE_EDGE_NONE`). -/
def WESTON_DESKTOP_SURFACE_EDGE_LEFT : Nat := 4

/-- Right resize edge bit (see `WESTON_DESKTOP_SURFACE_EDGE_NONE`). -/
def WESTON_DESKTOP_SURFACE_EDGE_RIGHT : Nat := 8

/-- The local constant `resize_topbottom` of `surface_resize`
(src/desktop-shell/shell.c:1258). -/
def resize_topbottom : Nat :=
  WESTON_DESKTOP_SURFACE_EDGE_TOP ||| WESTON_DESKTOP_SURFACE_EDGE_BOTTOM

/-- The local constant `resize_leftright` of `surface_resize`
(src/desktop-shell/shell.c:1260). -/
def resize_leftright : Nat :=
  WESTON_DESKTOP_SURFACE_EDGE_LEFT ||| WESTON_DESKTOP_SURFACE_EDGE_RIGHT

/-- The local constant `resize_any` of `surface_resize`
(src/desktop-shell/shell.c:1262). -/
def resize_any : Nat := resize_topbottom ||| resize_leftright

/-- State of a `shell_surface` relevant to the interactive move/resize entry
points of src/desktop-shell/shell.c. `maximized` and `fullscreen` mirror
`weston_desktop_surface_get_maximized` / `_get_fullscreen`, which
`shsurf_is_max_or_fullscreen` (shell.c:77) reads; `state_maximized` and
`state_fullscreen` mirror the `shsurf->state` flags read by
`surface_tablet_tool_move` (shell.c:1123). `orientation_tiled` stands for
`shsurf->orientation` being a tiled orientation rather than NONE. -/
structure ShellSurf where
  grabbed : Bool
  maximized : Bool
  fullscreen : Bool
  state_maximized : Bool
  state_fullscreen : Bool
  resize_edges : Nat
  resizing : Bool
  orientation_tiled : Bool
  geometry_x : Int
  geometry_y : Int
  geometry_width : Int
  geometry_height : Int
deriving DecidableEq

/-- A grab object created by one of the move/resize entry points, recording
the data the C code stores into the freshly malloc-ed grab struct. -/
inductive StartedGrab where
  | none
  | moveGrab (dx dy : Int) (client_initiated : Bool)
  | touchMoveGrab (dx dy : Int)
  | tabletMoveGrab (dx dy : Int)
  | resizeGrab (edges : Nat) (width height : Int)
deriving DecidableEq

/-- Result of a move/resize entry point: the C return value, the
shell-surface state afterwards, and the grab started (if any). -/
structure EntryResult where
  ret : Int
  shsurf : ShellSurf
  grab : StartedGrab
deriving DecidableEq

/-- Embedding of `surface_move` (src/desktop-shell/shell.c:967) for a
non-NULL shell surface. `malloc_ok` models whether the grab allocation
succeeds; `dx`/`dy` are the delta of view position minus pointer grab
position that the code stores in `move->delta`. `shell_grab_start`
(shell.c:168) sets `shsurf->grabbed = 1`. -/
def surface_move (shsurf : ShellSurf) (malloc_ok : Bool)
    (dx dy : Int) (client_initiated : Bool) : EntryResult :=
  if shsurf.grabbed || shsurf.maximized || shsurf.fullscreen then
    ⟨0, shsurf, .none⟩
  else if !malloc_ok then
    ⟨-1, shsurf, .none⟩
  else
    ⟨0, { shsurf with orientation_tiled := false, grabbed := true },
     .moveGrab dx dy client_initiated⟩

/-- Embedding of `surface_touch_move` (src/desktop-shell/shell.c:825) for a
non-NULL shell surface; `shell_touch_grab_start` (shell.c:253) sets
`shsurf->grabbed = 1`. The function checks only
`shsurf_is_max_or_fullscreen`, not the `grabbed` flag. -/
def surface_touch_move (shsurf : ShellSurf) (malloc_ok : Bool)
    (dx dy : Int) : EntryResult :=
  if shsurf.maximized || shsurf.fullscreen then
    ⟨0, shsurf, .none⟩
  else if !malloc_ok then
    ⟨-1, shsurf, .none⟩
  else
    ⟨0, { shsurf with grabbed := true }, .touchMoveGrab dx dy⟩

/-- Embedding of `surface_tablet_tool_move` (src/desktop-shell/shell.c:1114)
for a non-NULL shell surface; `shell_tablet_tool_grab_start` (shell.c:289)
sets `shsurf->grabbed = 1`. The function checks only the
`shsurf->state.fullscreen` and `shsurf->state.maximized` flags, not the
`grabbed` flag. -/
def surface_tablet_tool_move (shsurf : ShellSurf) (malloc_ok : Bool)
    (dx dy : Int) : EntryResult :=
  if shsurf.state_fullscreen || shsurf.state_maximized then
    ⟨0, shsurf, .none⟩
  else if !malloc_ok then
    ⟨-1, shsurf, .none⟩
  else
    ⟨0, { shsurf with grabbed := true }, .tabletMoveGrab dx dy⟩

/-- Embedding of `surface_resize` (src/desktop-shell/shell.c:1253). The
grab records the surface geometry width/height at grab start; on success
the code sets `shsurf->resize_edges`, marks the desktop surface resizing,
clears the tiled orientation, and `shell_grab_start` sets
`shsurf->grabbed = 1`. -/
def surface_resize (shsurf : ShellSurf) (malloc_ok : Bool)
    (edges : Nat) : EntryResult :=
  if shsurf.grabbed || shsurf.maximized || shsurf.fullscreen then
    ⟨0, shsurf, .none⟩
  else if edges = WESTON_DESKTOP_SURFACE_EDGE_NONE ∨ resize_any < edges ∨
      edges &&& resize_topbottom = resize_topbottom ∨
      edges &&& resize_leftright = resize_leftright then
    ⟨0, shsurf, .none⟩
  else if !malloc_ok then
    ⟨-1, shsurf, .none⟩
  else
    ⟨0, { shsurf with resize_edges := edges, resizing := true,
                      orientation_tiled := false, grabbed := true },
     .resizeGrab edges shsurf.geometry_width shsurf.geometry_height⟩

/-- The raw (pre-clamp) dimension computed by `resize_grab_motion`
(src/desktop-shell/shell.c:1171): the grab-start dimension plus the signed
pointer delta along the active edge of its axis. `neg_edge` is the edge
whose delta is `from - to` (LEFT for width, TOP for height) and `pos_edge`
the edge whose delta is `to - from` (RIGHT for width, BOTTOM for height). -/
def resize_raw_dim (edges neg_edge pos_edge : Nat)
    (start gfrom gto : Int) : Int :=
  if edges &&& neg_edge ≠ 0 then start + (gfrom - gto)
  else if edges &&& pos_edge ≠ 0 then start + (gto - gfrom)
  else start

/-- The min/max clamp applied by `resize_grab_motion`
(src/desktop-shell/shell.c:1188): the declared minimum is floored at 1,
a dimension below it becomes exactly the floored minimum, otherwise a
dimension above a positive declared maximum becomes exactly the maximum. -/
def resize_clamp_dim (raw min_v max_v : Int) : Int :=
  if raw < max 1 min_v then max 1 min_v
  else if 0 < max_v ∧ max_v < raw then max_v
  else raw

/-- Embedding of `resize_grab_motion` (src/desktop-shell/shell.c:1143): the
(width, height) sent to the client via `weston_desktop_surface_set_size`,
from the grab edges, the grab-start geometry (`resize->width/height`), the
grab and current pointer positions in surface coordinates, and the
client-declared min/max sizes. -/
def resize_grab_motion (edges : Nat) (start_width start_height : Int)
    (from_x from_y to_x to_y : Int)
    (min_width min_height max_width max_height : Int) : Int × Int :=
  (resize_clamp_dim
     (resize_raw_dim edges WESTON_DESKTOP_SURFACE_EDGE_LEFT
        WESTON_DESKTOP_SURFACE_EDGE_RIGHT start_width from_x to_x)
     min_width max_width,
   resize_clamp_dim
     (resize_raw_dim edges WESTON_DESKTOP_SURFACE_EDGE_TOP
        WESTON_DESKTOP_SURFACE_EDGE_BOTTOM start_height from_y to_y)
     min_height max_height)

/-- Panel position configuration (`enum weston_desktop_shell_panel_position`
as read by `get_output_work_area` and `constrain_position`). -/
inductive PanelPosition where
  | top
  | bottom
  | left
  | right
deriving DecidableEq

/-- A `pixman_rectangle32_t` work area. -/
structure Rect where
  x : Int
  y : Int
  width : Int
  height : Int
deriving DecidableEq

/-- The fields of a `shell_output` read by `get_output_work_area`
(src/desktop-shell/shell.c:194): the output position and mode size, whether
a panel view exists and is mapped, and the panel surface size. -/
structure ShellOutput where
  pos_x : Int
  pos_y : Int
  width : Int
  height : Int
  panel_mapped : Bool
  panel_width : Int
  panel_height : Int
deriving DecidableEq

/-- Embedding of `get_output_work_area` (src/desktop-shell/shell.c:194):
the output geometry minus the panel reservation on the configured panel
edge; all-zero for a NULL `shell_output`, and the full output geometry when
no mapped panel view exists. -/
def get_output_work_area (panel_position : PanelPosition)
    (sh_output : Option ShellOutput) : Rect :=
  match sh_output with
  | Option.none => ⟨0, 0, 0, 0⟩
  | Option.some o =>
    if !o.panel_mapped then
      ⟨o.pos_x, o.pos_y, o.width, o.height⟩
    else
      match panel_position with
      | .top =>
        ⟨o.pos_x, o.pos_y + o.panel_height, o.width, o.height - o.panel_height⟩
      | .bottom =>
        ⟨o.pos_x, o.pos_y, o.width, o.height - o.panel_height⟩
      | .left =>
        ⟨o.pos_x + o.panel_width, o.pos_y, o.width - o.panel_width, o.height⟩
      | .right =>
        ⟨o.pos_x, o.pos_y, o.width - o.panel_width, o.height⟩

/-- The `weston_geometry` of a desktop surface as returned by
`weston_desktop_surface_get_geometry`. -/
structure Geometry where
  x : Int
  y : Int
  width : Int
  height : Int
deriving DecidableEq

/-- Embedding of `get_maximized_size` (src/desktop-shell/shell.c:2261): the
(width, height) of the bound output's work area, which
`set_shsurf_size_maximized_or_fullscreen` (shell.c:87) sends to a surface
when maximize is requested. -/
def get_maximized_size (panel_position : PanelPosition)
    (sh_output : Option ShellOutput) : Int × Int :=
  let area := get_output_work_area panel_position sh_output
  (area.width, area.height)

/-- Embedding of `set_maximized_position` (src/desktop-shell/shell.c:2049).
Modelled from the spec: `weston_view_set_position_with_offset` is libweston
core code not under src/; per the spec the view is positioned at the
work-area origin "adjusting for the surface's geometry offset", i.e. at
position plus the surface-coordinate offset `(-geometry.x, -geometry.y)`. -/
def set_maximized_position (panel_position : PanelPosition)
    (sh_output : Option ShellOutput) (geometry : Geometry) : Int × Int :=
  let area := get_output_work_area panel_position sh_output
  (area.x - geometry.x, area.y - geometry.y)

/-- Embedding of `constrain_position` (src/desktop-shell/shell.c:874) for a
move grab. `px`/`py` is the current pointer position and `dx`/`dy` the
`move->delta` recorded at grab start; `area_y` is the `y` origin of the
work area of the surface's output; the constant 50 is the local `safety`.
Clamping happens only when the shell panel is configured at the top. -/
def constrain_position (panel_position : PanelPosition) (area_y : Int)
    (geometry : Geometry) (client_initiated : Bool)
    (px py dx dy : Int) : Int × Int :=
  let cx := px + dx
  let cy := py + dy
  if panel_position = PanelPosition.top then
    let bottom := cy + geometry.height + geometry.y
    let cy := if bottom - 50 < area_y
              then area_y + 50 - geometry.height - geometry.y
              else cy
    let cy := if client_initiated ∧ cy + geometry.y < area_y
              then area_y - geometry.y
              else cy
    (cx, cy)
  else
    (cx, cy)

/-- Embedding of `move_grab_motion` (src/desktop-shell/shell.c:913): when
the grabbed shell surface is still alive the view is repositioned to the
constrained pointer-plus-delta position, otherwise nothing happens. -/
def move_grab_motion (shsurf_alive : Bool) (panel_position : PanelPosition)
    (area_y : Int) (geometry : Geometry) (client_initiated : Bool)
    (px py dx dy : Int) : Option (Int × Int) :=
  if !shsurf_alive then Option.none
  else Option.some
    (constrain_position panel_position area_y geometry client_initiated
       px py dx dy)

/-- Layer membership of a view that currently sits in the fullscreen layer
walk of `lower_fullscreen_layer`: it either stays in the fullscreen layer
or is moved to the current workspace layer. -/
inductive LayerTag where
  | fullscreen
  | workspace
deriving DecidableEq

/-- One view of the fullscreen layer as seen by `lower_fullscreen_layer`
(src/desktop-shell/shell.c:3425): whether `get_shell_surface` on its
surface is non-NULL, the shell surface's `fullscreen_output` (an output id,
`Option.none` for NULL), the black backdrop view (`Option.none` when
`shsurf->fullscreen.black_view` is NULL, otherwise `Option.some layered`),
its current layer and the `state.lowered` flag. -/
structure FullscreenEntry where
  hasShellSurface : Bool
  fullscreen_output : Option Nat
  black_view : Option Bool
  layer : LayerTag
  lowered : Bool
deriving DecidableEq

/-- The body of the `lower_fullscreen_layer` loop
(src/desktop-shell/shell.c:3433) applied to one view of the fullscreen
layer: views without a shell surface are skipped, views whose shell
surface's fullscreen output differs from a non-NULL `lowering_output` are
skipped, and the rest have their black view unlayered, are moved to the
workspace layer, and get `state.lowered` set. -/
def lower_fullscreen_entry (lowering_output : Option Nat)
    (e : FullscreenEntry) : FullscreenEntry :=
  if !e.hasShellSurface then e
  else if lowering_output.isSome ∧ e.fullscreen_output ≠ lowering_output then e
  else
    { e with black_view := e.black_view.map (fun _ => false),
             layer := LayerTag.workspace,
             lowered := true }

/-- Embedding of `lower_fullscreen_layer` (src/desktop-shell/shell.c:3425)
over the list of views of the fullscreen layer. -/
def lower_fullscreen_layer (lowering_output : Option Nat)
    (layer : List FullscreenEntry) : List FullscreenEntry :=
  layer.map (lower_fullscreen_entry lowering_output)

/-- The fullscreen-lowering step of `activate`
(src/desktop-shell/shell.c:3492): `lower_fullscreen_layer` is called with
the activated surface's output only when that output is non-NULL. -/
def activate_lower_fullscreen (shsurf_output : Option Nat)
    (layer : List FullscreenEntry) : List FullscreenEntry :=
  match shsurf_output with
  | Option.some o => lower_fullscreen_layer (Option.some o) layer
  | Option.none => layer

/-- The `shell->child.deathstamp` / `deathcount` pair used by
`respawn_desktop_shell_process` (src/desktop-shell/shell.c:4002);
the stamp is a timestamp in milliseconds. -/
structure RespawnState where
  deathstamp : Int
  deathcount : Nat
deriving DecidableEq

/-- Outcome of one run of `respawn_desktop_shell_process`: the updated
state, whether `launch_desktop_shell_process` was called, and whether the
"giving up" message was logged instead. -/
structure RespawnOutcome where
  state : RespawnState
  respawned : Bool
  gave_up : Bool
deriving DecidableEq

/-- Embedding of `respawn_desktop_shell_process`
(src/desktop-shell/shell.c:4002): if more than 30000 ms have passed since
`deathstamp`, the window restarts (stamp := now, count := 0); the count is
then incremented, and once it exceeds 5 the helper client is not
relaunched and the "giving up" message is logged. -/
def respawn_desktop_shell_process (now : Int) (s : RespawnState) :
    RespawnOutcome :=
  let s1 := if now - s.deathstamp > 30000 then RespawnState.mk now 0 else s
  let s2 := RespawnState.mk s1.deathstamp (s1.deathcount + 1)
  if s2.deathcount > 5 then ⟨s2, false, true⟩
  else ⟨s2, true, false⟩

/-- Embedding of `check_desktop_shell_crash_too_early`
(src/desktop-shell/shell.c:3973): when the monotonic clock is readable and
the session has been up for less than 30 seconds, the compositor exits
(returns true). `now_sec` and `startup_sec` are the `tv_sec` fields. -/
def check_desktop_shell_crash_too_early (clock_ok : Bool)
    (now_sec startup_sec : Int) : Bool :=
  if !clock_ok then false
  else if now_sec - startup_sec < 30 then true
  else false

/-- Outcome of `desktop_shell_client_destroy`
(src/desktop-shell/shell.c:4024) as far as respawning is concerned. -/
structure ClientDestroyOutcome where
  exited : Bool
  state : RespawnState
  respawned : Bool
  gave_up : Bool
deriving DecidableEq

/-- Embedding of the respawn decision of `desktop_shell_client_destroy`
(src/desktop-shell/shell.c:4024): unless the compositor is shutting down,
a crash in the first 30 seconds of uptime exits the compositor, and any
later crash runs `respawn_desktop_shell_process` with the compositor kept
running. -/
def desktop_shell_client_destroy (shutting_down clock_ok : Bool)
    (now_sec startup_sec now_msec : Int) (s : RespawnState) :
    ClientDestroyOutcome :=
  if shutting_down then ⟨false, s, false, false⟩
  else if check_desktop_shell_crash_too_early clock_ok now_sec startup_sec then
    ⟨true, s, false, false⟩
  else
    let o := respawn_desktop_shell_process now_msec s
    ⟨false, o.state, o.respawned, o.gave_up⟩

/-- One crash in a crash sequence: feed the time into
`respawn_desktop_shell_process` and count whether it relaunched. -/
def respawn_step (p : RespawnState × Nat) (t : Int) : RespawnState × Nat :=
  let o := respawn_desktop_shell_process t p.1
  (o.state, p.2 + if o.respawned then 1 else 0)

/-- Total respawns over a sequence of crash times, folding
`respawn_desktop_shell_process` from an initial state. -/
def respawn_run (times : List Int) (s : RespawnState) : RespawnState × Nat :=
  times.foldl respawn_step (s, 0)

/-- A view of the current workspace's layer as scanned by the loop of
`focus_state_surface_destroy` (src/desktop-shell/shell.c:524): the id of
its surface, whether it is one of the dim/focus-overlay views
(`is_focus_view`, shell.c:411), and whether `get_shell_surface` on its
surface is non-NULL. -/
structure LayerView where
  surfaceId : Nat
  isFocusView : Bool
  hasShellSurface : Bool
deriving DecidableEq

/-- The skip conditions of the scan loop of `focus_state_surface_destroy`
(src/desktop-shell/shell.c:524): a candidate view is eligible when its
surface differs from the destroyed focus's main surface, it is not a
dim/focus-overlay view, and its surface has a shell surface. -/
def focus_candidate_eligible (main_surface : Nat) (v : LayerView) : Bool :=
  v.surfaceId != main_surface && !v.isFocusView && v.hasShellSurface

/-- The view handed to `activate` by `focus_state_surface_destroy`: either
a view found in the workspace layer scan, or the default view of the
destroyed sub-surface's main surface. -/
inductive NextTarget where
  | layerView (v : LayerView)
  | mainDefaultView (surfaceId : Nat)
deriving DecidableEq

/-- The surface a `NextTarget` belongs to. -/
def NextTarget.surfaceId : NextTarget → Nat
  | .layerView v => v.surfaceId
  | .mainDefaultView s => s

/-- Outcome of `focus_state_surface_destroy`
(src/desktop-shell/shell.c:511): which view (if any) is activated, whether
`state->keyboard_focus` was nulled before handing off to `activate`, and
whether the focus state was removed from its workspace list and freed. -/
structure FocusDestroyOutcome where
  activated : Option NextTarget
  keyboard_focus_cleared : Bool
  removed_from_list : Bool
  freed : Bool
deriving DecidableEq

/-- Embedding of `focus_state_surface_destroy`
(src/desktop-shell/shell.c:511). `keyboard_focus` is the id of the focused
surface being destroyed, `main_surface` the id of
`weston_surface_get_main_surface(keyboard_focus)`, `layer` the view list
of the focus state's workspace layer, and `main_has_default_view` whether
`get_default_view(main_surface)` is non-NULL. The scan result is
overridden by the main surface's default view when the destroyed focus was
a sub-surface; with a target the focus is nulled and the target activated,
without one the focus state is unlinked and freed. -/
def focus_state_surface_destroy (keyboard_focus main_surface : Nat)
    (layer : List LayerView) (main_has_default_view : Bool) :
    FocusDestroyOutcome :=
  let scanned := layer.find? (focus_candidate_eligible main_surface)
  let next : Option NextTarget :=
    if main_surface ≠ keyboard_focus then
      if main_has_default_view
      then Option.some (NextTarget.mainDefaultView main_surface)
      else Option.none
    else scanned.map NextTarget.layerView
  match next with
  | Option.some t => ⟨Option.some t, true, false, false⟩
  | Option.none => ⟨Option.none, false, true, true⟩

/-- The fields of a `weston_desktop_surface` needed by
`weston_desktop_surface_destroy` and
`weston_desktop_surface_unset_relative_to`
(src/libweston/desktop/surface.c): an identity, the parent link (the
`children_list` membership is derived from it), the `use_geometry` flag
and the ids of the surface's live views. -/
structure DSurf where
  id : Nat
  parent : Option Nat
  use_geometry : Bool
  views : List Nat
deriving DecidableEq

/-- The effect of `weston_desktop_surface_unset_relative_to`
(src/libweston/desktop/surface.c:843) on a single surface record: a
surface with no parent is left alone; otherwise its parent link is cleared
(removing it from the parent's children list), `use_geometry` is reset and
all of its views are destroyed. -/
def unset_relative_to_one (sid : Nat) (s : DSurf) : DSurf :=
  if s.id = sid ∧ s.parent ≠ Option.none then
    { s with parent := Option.none, use_geometry := false, views := [] }
  else s

/-- Embedding of `weston_desktop_surface_unset_relative_to`
(src/libweston/desktop/surface.c:843) over the flat surface table. -/
def weston_desktop_surface_unset_relative_to (st : List DSurf) (sid : Nat) :
    List DSurf :=
  st.map (unset_relative_to_one sid)

/-- Embedding of the tree part of `weston_desktop_surface_destroy`
(src/libweston/desktop/surface.c:143): the destroyed surface is unlinked
from its own parent, each of its children is unlinked via
`weston_desktop_surface_unset_relative_to` (child destroying the child's
views), all of the destroyed surface's views are destroyed, and the
surface record itself is freed. -/
def weston_desktop_surface_destroy (st : List DSurf) (sid : Nat) :
    List DSurf :=
  let st1 := weston_desktop_surface_unset_relative_to st sid
  let childIds :=
    (st1.filter (fun s => s.parent = Option.some sid)).map DSurf.id
  let st2 := childIds.foldl weston_desktop_surface_unset_relative_to st1
  st2.filter (fun s => s.id ≠ sid)

/-- One observable event of the metadata setters of
src/libweston/desktop/surface.c: the `metadata_signal` emission and the
`free` of the previously stored string. -/
inductive MetaEvent where
  | metadataSignal
  | freedOld (old : Option Nat)
deriving DecidableEq

/-- The title/app-id metadata of a `weston_desktop_surface` together with
the ordered log of observable events. -/
structure MetadataState where
  title : Option Nat
  app_id : Option Nat
  log : List MetaEvent
deriving DecidableEq

/-- Embedding of `weston_desktop_surface_set_title`
(src/libweston/desktop/surface.c:748). `strdup_ok` models whether copying
the new string succeeds; on failure the function returns with nothing
changed, on success the stored title is replaced, the metadata signal is
emitted, and only then is the old string freed. -/
def weston_desktop_surface_set_title (strdup_ok : Bool) (s : MetadataState)
    (t : Nat) : MetadataState :=
  if !strdup_ok then s
  else
    { s with title := Option.some t,
             log := s.log ++ [MetaEvent.metadataSignal,
                              MetaEvent.freedOld s.title] }

/-- Embedding of `weston_desktop_surface_set_app_id`
(src/libweston/desktop/surface.c:764), symmetric to
`weston_desktop_surface_set_title`. -/
def weston_desktop_surface_set_app_id (strdup_ok : Bool) (s : MetadataState)
    (a : Nat) : MetadataState :=
  if !strdup_ok then s
  else
    { s with app_id := Option.some a,
             log := s.log ++ [MetaEvent.metadataSignal,
                              MetaEvent.freedOld s.app_id] }

/-- Shell surface in the plain normal state, used to instantiate the claim
theorems at concrete inputs. -/
def demo_surf : ShellSurf :=
  ⟨false, false, false, false, false, 0, false, false, 0, 0, 640, 480⟩

/-- The concrete output of the C4 scenario: at (0,0), 1000 by 800, with a
mapped 30-pixel-high panel. -/
def demo_output : ShellOutput := ⟨0, 0, 1000, 800, true, 1000, 30⟩

/-- A zero-offset surface geometry for the C4 scenario. -/
def demo_geometry : Geometry := ⟨0, 0, 400, 300⟩

/-- A maximized surface used to instantiate `C9_blocked_move_resize`. -/
def maxed_surf : ShellSurf :=
  ⟨false, true, false, true, false, 0, false, false, 0, 0, 640, 480⟩

/-- A surface already owned by a grab but neither maximized nor
fullscreen. -/
def grabbed_surf : ShellSurf :=
  ⟨true, false, false, false, false, 0, false, false, 0, 0, 640, 480⟩

/-- A fullscreen-layer entry on output 0 with a layered black backdrop. -/
def fs_entry_same : FullscreenEntry :=
  ⟨true, Option.some 0, Option.some true, LayerTag.fullscreen, false⟩

/-- A fullscreen-layer entry on output 1 with a layered black backdrop. -/
def fs_entry_other : FullscreenEntry :=
  ⟨true, Option.some 1, Option.some true, LayerTag.fullscreen, false⟩

/-- A three-surface chain: grandparent 0, its child 1, and 1's child 2,
each with one live view. -/
def c8_table : List DSurf :=
  [⟨0, Option.none, false, [10]⟩, ⟨1, Option.some 0, false, [11]⟩,
   ⟨2, Option.some 1, true, [12]⟩]

/-! Theorems. -/

theorem land_resize_any_ne_iff (edges : Nat) :
    edges &&& resize_any ≠ edges ↔ resize_any < edges := by
  have hra : resize_any = 15 := by decide
  have h1 : edges &&& resize_any = edges % 16 := by
    rw [hra]
    have h2 := Nat.and_pow_two_sub_one_eq_mod edges 4
    norm_num at h2
    exact h2
  rw [h1, hra]
  constructor
  · intro hne
    by_contra hle
    push_neg at hle
    exact hne (Nat.mod_eq_of_lt (by omega))
  · intro hlt heq
    have := Nat.mod_lt edges (show 0 < 16 by norm_num)
    omega

/-- Claim C2: a resize request whose edge set is empty, has bits outside
the four valid edges, or contains both opposite edges of an axis, is a
silent no-op — `surface_resize` returns 0 (success), starts no grab, and
leaves the shell surface's state untouched. -/
theorem C2_invalid_edges_noop (s : ShellSurf) (malloc_ok : Bool) (edges : Nat)
    (h : edges = 0 ∨ edges &&& resize_any ≠ edges ∨
         edges &&& resize_topbottom = resize_topbottom ∨
         edges &&& resize_leftright = resize_leftright) :
    surface_resize s malloc_ok edges = ⟨0, s, StartedGrab.none⟩ := by
  have h' : edges = WESTON_DESKTOP_SURFACE_EDGE_NONE ∨ resize_any < edges ∨
      edges &&& resize_topbottom = resize_topbottom ∨
      edges &&& resize_leftright = resize_leftright := by
    rcases h with h | h | h | h
    · exact Or.inl h
    · exact Or.inr (Or.inl ((land_resize_any_ne_iff edges).mp h))
    · exact Or.inr (Or.inr (Or.inl h))
    · exact Or.inr (Or.inr (Or.inr h))
  unfold surface_resize
  split
  · rfl
  · rfl

/-- Witness for C2: the LEFT|RIGHT edge combination on a plain surface is
accepted silently and starts no grab. -/
theorem C2_invalid_edges_noop_witness :
    ((12 : Nat) = 0 ∨ (12 : Nat) &&& resize_any ≠ 12 ∨
     (12 : Nat) &&& resize_topbottom = resize_topbottom ∨
     (12 : Nat) &&& resize_leftright = resize_leftright) ∧
    surface_resize demo_surf true 12 = ⟨0, demo_surf, StartedGrab.none⟩ :=
  ⟨by decide, C2_invalid_edges_noop demo_surf true 12 (by decide)⟩

/-- Claim C10: setting a desktop surface's title or app-id is atomic with
respect to allocation failure — when the string copy fails the stored
value is unchanged and no metadata notification is emitted; when it
succeeds the stored value is replaced and the metadata signal is emitted
before the old value is freed. -/
theorem C10_metadata_set_atomic (ok : Bool) (s : MetadataState) (v : Nat) :
    (ok = false →
       weston_desktop_surface_set_title ok s v = s ∧
       weston_desktop_surface_set_app_id ok s v = s) ∧
    (ok = true →
       (weston_desktop_surface_set_title ok s v).title = Option.some v ∧
       (weston_desktop_surface_set_title ok s v).log =
         s.log ++ [MetaEvent.metadataSignal, MetaEvent.freedOld s.title] ∧
       (weston_desktop_surface_set_app_id ok s v).app_id = Option.some v ∧
       (weston_desktop_surface_set_app_id ok s v).log =
         s.log ++ [MetaEvent.metadataSignal, MetaEvent.freedOld s.app_id]) := by
  constructor <;> intro h <;> subst h <;>
    simp [weston_desktop_surface_set_title, weston_desktop_surface_set_app_id]

/-- Witness for C10 at a concrete metadata state. -/
theorem C10_metadata_set_atomic_witness :
    weston_desktop_surface_set_title false ⟨Option.some 7, Option.none, []⟩ 8 =
      ⟨Option.some 7, Option.none, []⟩ ∧
    (weston_desktop_surface_set_title true ⟨Option.some 7, Option.none, []⟩ 8).title =
      Option.some 8 ∧
    (weston_desktop_surface_set_title true ⟨Option.some 7, Option.none, []⟩ 8).log =
      [MetaEvent.metadataSignal, MetaEvent.freedOld (Option.some 7)] :=
  ⟨((C10_metadata_set_atomic false ⟨Option.some 7, Option.none, []⟩ 8).1 rfl).1,
   ((C10_metadata_set_atomic true ⟨Option.some 7, Option.none, []⟩ 8).2 rfl).1,
   ((C10_metadata_set_atomic true ⟨Option.some 7, Option.none, []⟩ 8).2 rfl).2.1⟩

/-- Claim C4: maximizing sizes a surface to its bound output's work area
(the output geometry minus the panel reservation on the panel's edge, here
spelled out for a top panel) and positions its view at the work-area
origin adjusted by the surface's geometry offset. -/
theorem C4_maximize_work_area (o : ShellOutput) (g : Geometry)
    (pp : PanelPosition) (hmapped : o.panel_mapped = true) :
    get_maximized_size pp (Option.some o) =
      ((get_output_work_area pp (Option.some o)).width,
       (get_output_work_area pp (Option.some o)).height) ∧
    set_maximized_position pp (Option.some o) g =
      ((get_output_work_area pp (Option.some o)).x - g.x,
       (get_output_work_area pp (Option.some o)).y - g.y) ∧
    (pp = PanelPosition.top →
       get_output_work_area pp (Option.some o) =
         ⟨o.pos_x, o.pos_y + o.panel_height, o.width,
          o.height - o.panel_height⟩) := by
  refine ⟨rfl, rfl, ?_⟩
  intro h
  subst h
  simp [get_output_work_area, hmapped]

/-- Witness for C4: the concrete scenario of the spec — a 1000 by 800
output with a 30-pixel top panel yields maximized size 1000 by 770 at
position (0, 30). -/
theorem C4_maximize_work_area_witness :
    demo_output.panel_mapped = true ∧
    get_maximized_size PanelPosition.top (Option.some demo_output) = (1000, 770) ∧
    set_maximized_position PanelPosition.top (Option.some demo_output)
      demo_geometry = (0, 30) := by
  have h := C4_maximize_work_area demo_output demo_geometry PanelPosition.top rfl
  exact ⟨rfl, h.1.trans (by decide), h.2.1.trans (by decide)⟩

/-- Claim C9 (amended): the pointer move and pointer resize entry points
return success without starting a grab and without touching the surface
when it is grabbed, maximized or fullscreen; the touch-move and
tablet-tool-move entry points do so only when the surface is maximized or
fullscreen — they do not consult the grabbed flag. -/
theorem C9_blocked_move_resize (s : ShellSurf) (malloc_ok : Bool)
    (dx dy : Int) (ci : Bool) (edges : Nat) :
    (s.grabbed = true ∨ s.maximized = true ∨ s.fullscreen = true →
       surface_move s malloc_ok dx dy ci = ⟨0, s, StartedGrab.none⟩ ∧
       surface_resize s malloc_ok edges = ⟨0, s, StartedGrab.none⟩) ∧
    (s.maximized = true ∨ s.fullscreen = true →
       surface_touch_move s malloc_ok dx dy = ⟨0, s, StartedGrab.none⟩) ∧
    (s.state_maximized = true ∨ s.state_fullscreen = true →
       surface_tablet_tool_move s malloc_ok dx dy =
         ⟨0, s, StartedGrab.none⟩) := by
  refine ⟨fun h => ?_, fun h => ?_, fun h => ?_⟩
  · have hc : (s.grabbed || s.maximized || s.fullscreen) = true := by
      rcases h with h | h | h <;> simp [h]
    exact ⟨by simp [surface_move, hc], by simp [surface_resize, hc]⟩
  · have hc : (s.maximized || s.fullscreen) = true := by
      rcases h with h | h <;> simp [h]
    simp [surface_touch_move, hc]
  · have hc : (s.state_fullscreen || s.state_maximized) = true := by
      rcases h with h | h <;> simp [h]
    simp [surface_tablet_tool_move, hc]

/-- Witness for C9 (amended) on a maximized surface. -/
theorem C9_blocked_move_resize_witness :
    (maxed_surf.grabbed = true ∨ maxed_surf.maximized = true ∨
     maxed_surf.fullscreen = true) ∧
    surface_move maxed_surf true 3 4 true = ⟨0, maxed_surf, StartedGrab.none⟩ ∧
    surface_touch_move maxed_surf true 3 4 = ⟨0, maxed_surf, StartedGrab.none⟩ ∧
    surface_tablet_tool_move maxed_surf true 3 4 =
      ⟨0, maxed_surf, StartedGrab.none⟩ :=
  ⟨Or.inr (Or.inl rfl),
   ((C9_blocked_move_resize maxed_surf true 3 4 true 1).1
      (Or.inr (Or.inl rfl))).1,
   (C9_blocked_move_resize maxed_surf true 3 4 true 1).2.1 (Or.inl rfl),
   (C9_blocked_move_resize maxed_surf true 3 4 true 1).2.2 (Or.inl rfl)⟩

/-- Counterexample to claim C9 as stated: on a surface already owned by a
grab (and neither maximized nor fullscreen), the touch-move and
tablet-tool-move entry points do start a new grab, contradicting the claim
that no move request on a grab-owned surface starts any grab. -/
theorem C9_blocked_move_resize_counterexample :
    grabbed_surf.grabbed = true ∧ grabbed_surf.maximized = false ∧
    grabbed_surf.fullscreen = false ∧ grabbed_surf.state_maximized = false ∧
    grabbed_surf.state_fullscreen = false ∧
    (surface_touch_move grabbed_surf true 0 0).ret = 0 ∧
    (surface_touch_move grabbed_surf true 0 0).grab =
      StartedGrab.touchMoveGrab 0 0 ∧
    (surface_tablet_tool_move grabbed_surf true 0 0).grab =
      StartedGrab.tabletMoveGrab 0 0 := by
  decide

/-- Claim C3 (amended): during a resize-grab motion the width and height
sent to the client are the grab-start geometry plus the signed pointer
delta along the active edges, where a raw result below the effective
minimum (the declared minimum floored at 1) yields exactly that minimum;
the max clamp applies only to raw results at or above the effective
minimum — for those, a raw result above a positive declared maximum
yields exactly the maximum, and otherwise the raw result is sent
unchanged. -/
theorem C3_resize_motion_clamp (edges : Nat)
    (sw sh fx fy tx ty minw minh maxw maxh rawW rawH w h : Int)
    (hrawW : rawW = resize_raw_dim edges WESTON_DESKTOP_SURFACE_EDGE_LEFT
       WESTON_DESKTOP_SURFACE_EDGE_RIGHT sw fx tx)
    (hrawH : rawH = resize_raw_dim edges WESTON_DESKTOP_SURFACE_EDGE_TOP
       WESTON_DESKTOP_SURFACE_EDGE_BOTTOM sh fy ty)
    (hwh : (w, h) = resize_grab_motion edges sw sh fx fy tx ty
       minw minh maxw maxh) :
    (rawW < max 1 minw → w = max 1 minw) ∧
    (max 1 minw ≤ rawW → 0 < maxw → maxw < rawW → w = maxw) ∧
    (max 1 minw ≤ rawW → maxw ≤ 0 ∨ rawW ≤ maxw → w = rawW) ∧
    (rawH < max 1 minh → h = max 1 minh) ∧
    (max 1 minh ≤ rawH → 0 < maxh → maxh < rawH → h = maxh) ∧
    (max 1 minh ≤ rawH → maxh ≤ 0 ∨ rawH ≤ maxh → h = rawH) := by
  have hw : w = resize_clamp_dim rawW minw maxw ∧
      h = resize_clamp_dim rawH minh maxh := by
    rw [hrawW, hrawH]
    simpa [resize_grab_motion, Prod.ext_iff] using hwh
  obtain ⟨hw, hh⟩ := hw
  subst hw
  subst hh
  unfold resize_clamp_dim
  refine ⟨fun h1 => ?_, fun h1 h2 h3 => ?_, fun h1 h2 => ?_,
          fun h1 => ?_, fun h1 h2 h3 => ?_, fun h1 h2 => ?_⟩ <;>
    split_ifs <;> omega

/-- Witness for C3 (amended): a RIGHT-edge drag from start width 640 by
10 pixels with minimum 100 and maximum 1000 is sent through unclamped. -/
theorem C3_resize_motion_clamp_witness :
    ((650 : Int) = resize_raw_dim 8 WESTON_DESKTOP_SURFACE_EDGE_LEFT
       WESTON_DESKTOP_SURFACE_EDGE_RIGHT 640 0 10) ∧
    ((480 : Int) = resize_raw_dim 8 WESTON_DESKTOP_SURFACE_EDGE_TOP
       WESTON_DESKTOP_SURFACE_EDGE_BOTTOM 480 0 0) ∧
    max 1 (100 : Int) ≤ 650 ∧ ((1000 : Int) ≤ 0 ∨ (650 : Int) ≤ 1000) ∧
    (resize_grab_motion 8 640 480 0 0 10 0 100 100 1000 1000).1 = 650 :=
  ⟨by decide, by decide, by decide, Or.inr (by decide),
   by
     have h := C3_resize_motion_clamp 8 640 480 0 0 10 0 100 100 1000 1000
       650 480
       (resize_grab_motion 8 640 480 0 0 10 0 100 100 1000 1000).1
       (resize_grab_motion 8 640 480 0 0 10 0 100 100 1000 1000).2
       (by decide) (by decide) rfl
     exact h.2.2.1 (by decide) (Or.inr (by decide))⟩

/-- Counterexample to claim C3 as stated: with declared minimum 10 and
declared maximum 5 (both dimensions), a RIGHT-edge grab with zero pointer
delta from start geometry 7 by 7 has raw result 7, which is above the
positive declared maximum 5, yet the code sends 10 (the effective
minimum), not the maximum — the min clamp takes precedence over the max
clamp. -/
theorem C3_resize_motion_clamp_counterexample :
    resize_raw_dim 8 WESTON_DESKTOP_SURFACE_EDGE_LEFT
      WESTON_DESKTOP_SURFACE_EDGE_RIGHT 7 0 0 = 7 ∧
    (0 : Int) < 5 ∧ (5 : Int) < 7 ∧
    resize_grab_motion 8 7 7 0 0 0 0 10 10 5 5 = (10, 10) ∧
    resize_grab_motion 8 7 7 0 0 0 0 10 10 5 5 ≠ (5, 5) := by
  decide

/-- Claim C7 (amended): every move-grab motion repositions the view to
pointer position plus the delta recorded at grab start; the X coordinate
is never altered, and with a top-mounted panel the Y coordinate is clamped
so that at least a 50-pixel strip of the window geometry stays below the
panel (the work-area top), with an extra constraint for client-initiated
drags — their window-geometry top cannot go above the work area at all;
when neither constraint bites, the position is exactly pointer plus
delta. -/
theorem C7_move_clamp (pp : PanelPosition) (area_y : Int) (g : Geometry)
    (ci : Bool) (px py dx dy cx cy : Int)
    (hres : (cx, cy) = constrain_position pp area_y g ci px py dx dy) :
    move_grab_motion true pp area_y g ci px py dx dy = Option.some (cx, cy) ∧
    cx = px + dx ∧
    (pp ≠ PanelPosition.top → cy = py + dy) ∧
    (pp = PanelPosition.top → area_y + 50 ≤ cy + g.height + g.y) ∧
    (pp = PanelPosition.top → ci = true → area_y ≤ cy + g.y) ∧
    (pp = PanelPosition.top →
       area_y + 50 ≤ py + dy + g.height + g.y →
       (ci = true → area_y ≤ py + dy + g.y) →
       cy = py + dy) := by
  have hmot : move_grab_motion true pp area_y g ci px py dx dy =
      Option.some (cx, cy) := by rw [hres]; rfl
  by_cases hpp : pp = PanelPosition.top
  · subst hpp
    cases ci
    · simp [constrain_position] at hres
      obtain ⟨hcx, hcy⟩ := hres
      refine ⟨hmot, hcx, fun hne => absurd rfl hne, fun _ => ?_,
              fun _ hci => by simp at hci, fun _ h1 _ => ?_⟩
      · split_ifs at hcy <;> omega
      · split_ifs at hcy <;> omega
    · simp [constrain_position] at hres
      obtain ⟨hcx, hcy⟩ := hres
      refine ⟨hmot, hcx, fun hne => absurd rfl hne, fun _ => ?_,
              fun _ _ => ?_, fun _ h1 h2 => ?_⟩
      · split_ifs at hcy <;> omega
      · split_ifs at hcy <;> omega
      · have h2' := h2 rfl
        split_ifs at hcy <;> omega
  · have hplain : constrain_position pp area_y g ci px py dx dy =
        (px + dx, py + dy) := by
      simp [constrain_position, hpp]
    rw [hplain] at hres
    simp at hres
    obtain ⟨hcx, hcy⟩ := hres
    exact ⟨hmot, hcx, fun _ => hcy, fun hp => absurd hp hpp,
           fun hp => absurd hp hpp, fun hp _ _ => absurd hp hpp⟩

/-- Witness for C7 (amended): a client-initiated drag well below a
30-pixel top panel moves the window to exactly pointer plus delta. -/
theorem C7_move_clamp_witness :
    ((0 : Int), (500 : Int)) =
      constrain_position PanelPosition.top 30 ⟨0, 0, 100, 100⟩ true 0 500 0 0 ∧
    move_grab_motion true PanelPosition.top 30 ⟨0, 0, 100, 100⟩ true 0 500 0 0 =
      Option.some (0, 500) ∧
    (30 : Int) + 50 ≤ 500 + 100 + 0 := by
  have hres : ((0 : Int), (500 : Int)) =
      constrain_position PanelPosition.top 30 ⟨0, 0, 100, 100⟩ true 0 500 0 0 := by
    decide
  have h := C7_move_clamp PanelPosition.top 30 ⟨0, 0, 100, 100⟩ true
    0 500 0 0 0 500 hres
  exact ⟨hres, h.1, h.2.2.2.1 rfl⟩

/-- Counterexample to claim C7 as stated: with a top panel whose work area
starts at y = 30 and a 100-pixel-high window, a drag to pointer-plus-delta
y = -100 is clamped on the Y axis to -20 (the X axis is untouched), so the
claimed X-axis clamping is wrong; moreover at y = -20 a keyboard-binding
drag is left alone while a client-initiated drag is forced down to y = 30,
so client-initiated drags are strictly more constrained, not looser. -/
theorem C7_move_clamp_counterexample :
    constrain_position PanelPosition.top 30 ⟨0, 0, 100, 100⟩ false 0 (-100) 0 0
      = (0, -20) ∧
    ((-100 : Int) + 0 ≠ -20) ∧
    constrain_position PanelPosition.top 30 ⟨0, 0, 100, 100⟩ false 0 (-20) 0 0
      = (0, -20) ∧
    constrain_position PanelPosition.top 30 ⟨0, 0, 100, 100⟩ true 0 (-20) 0 0
      = (0, 30) := by
  decide

/-- Claim C5: when a view whose shell surface has a (non-NULL) output is
activated, every view of the fullscreen layer is processed: an entry whose
shell surface's fullscreen output equals the activated surface's output is
moved to the workspace layer, gets its lowered flag set and its black
backdrop view unlayered (the rest of the entry unchanged); an entry with a
shell surface bound to a different fullscreen output, or with no shell
surface at all, is left completely unchanged. -/
theorem C5_lower_fullscreen_on_output (o : Nat) (shsurf_output : Option Nat)
    (layer : List FullscreenEntry) (e : FullscreenEntry)
    (ho : shsurf_output = Option.some o) :
    activate_lower_fullscreen shsurf_output layer =
      layer.map (lower_fullscreen_entry (Option.some o)) ∧
    (e.hasShellSurface = true → e.fullscreen_output = Option.some o →
       (lower_fullscreen_entry (Option.some o) e).layer = LayerTag.workspace ∧
       (lower_fullscreen_entry (Option.some o) e).lowered = true ∧
       (lower_fullscreen_entry (Option.some o) e).black_view =
         e.black_view.map (fun _ => false) ∧
       (lower_fullscreen_entry (Option.some o) e).hasShellSurface =
         e.hasShellSurface ∧
       (lower_fullscreen_entry (Option.some o) e).fullscreen_output =
         e.fullscreen_output) ∧
    (e.hasShellSurface = true → e.fullscreen_output ≠ Option.some o →
       lower_fullscreen_entry (Option.some o) e = e) ∧
    (e.hasShellSurface = false →
       lower_fullscreen_entry (Option.some o) e = e) := by
  subst ho
  refine ⟨rfl, fun hs hfo => ?_, fun hs hfo => ?_, fun hs => ?_⟩
  · simp [lower_fullscreen_entry, hs, hfo]
  · simp [lower_fullscreen_entry, hs, hfo]
  · simp [lower_fullscreen_entry, hs]

/-- Witness for C5: activating on output 0 lowers the same-output entry
(black view unlayered, moved to workspace layer, lowered set) and leaves
the other-output entry untouched. -/
theorem C5_lower_fullscreen_on_output_witness :
    activate_lower_fullscreen (Option.some 0) [fs_entry_same, fs_entry_other] =
      [fs_entry_same, fs_entry_other].map
        (lower_fullscreen_entry (Option.some 0)) ∧
    (lower_fullscreen_entry (Option.some 0) fs_entry_same).layer =
      LayerTag.workspace ∧
    (lower_fullscreen_entry (Option.some 0) fs_entry_same).lowered = true ∧
    (lower_fullscreen_entry (Option.some 0) fs_entry_same).black_view =
      Option.some false ∧
    lower_fullscreen_entry (Option.some 0) fs_entry_other = fs_entry_other := by
  have h1 := C5_lower_fullscreen_on_output 0 (Option.some 0)
    [fs_entry_same, fs_entry_other] fs_entry_same rfl
  have h2 := C5_lower_fullscreen_on_output 0 (Option.some 0)
    [fs_entry_same, fs_entry_other] fs_entry_other rfl
  refine ⟨h1.1, (h1.2.1 rfl rfl).1, (h1.2.1 rfl rfl).2.1, ?_,
          h2.2.2.1 rfl (by decide)⟩
  have h3 := (h1.2.1 rfl rfl).2.2.1
  simpa [fs_entry_same] using h3

theorem respawn_step_within (t : Int) (s : RespawnState) (k : Nat)
    (h : t - s.deathstamp ≤ 30000) :
    respawn_step (s, k) t =
      (RespawnState.mk s.deathstamp (s.deathcount + 1),
       k + if s.deathcount + 1 ≤ 5 then 1 else 0) := by
  have hc : ¬ t - s.deathstamp > 30000 := by omega
  by_cases h5 : s.deathcount + 1 ≤ 5
  · have h5' : ¬ s.deathcount + 1 > 5 := by omega
    simp [respawn_step, respawn_desktop_shell_process, hc, h5, h5']
  · have h5' : s.deathcount + 1 > 5 := by omega
    simp [respawn_step, respawn_desktop_shell_process, hc, h5, h5']

theorem respawn_fold_bound (times : List Int) :
    ∀ (s : RespawnState) (k : Nat),
      (∀ t ∈ times, t - s.deathstamp ≤ 30000) →
      (times.foldl respawn_step (s, k)).2 + min s.deathcount 5 ≤ k + 5 := by
  induction times with
  | nil =>
    intro s k _
    simp only [List.foldl_nil]
    omega
  | cons t ts ih =>
    intro s k h
    rw [List.foldl_cons,
        respawn_step_within t s k (h t (List.mem_cons_self t ts))]
    have hrest : ∀ u ∈ ts,
        u - (RespawnState.mk s.deathstamp (s.deathcount + 1)).deathstamp
          ≤ 30000 := by
      intro u hu
      exact h u (List.mem_cons_of_mem t hu)
    have hb := ih (RespawnState.mk s.deathstamp (s.deathcount + 1))
      (k + if s.deathcount + 1 ≤ 5 then 1 else 0) hrest
    by_cases h5 : s.deathcount + 1 ≤ 5 <;> simp [h5] at hb ⊢ <;> omega

/-- Claim C6: the helper-client respawn policy — within a rolling window
(30000 ms since the stored deathstamp) a crash only increments the death
counter, a crash after the window restarts it (stamp := now, count := 1);
the client is relaunched exactly when the updated counter is at most 5 and
otherwise the "giving up" path is taken; starting from a fresh window any
sequence of crashes inside the window yields at most 5 relaunches; and a
crash at 30 or more seconds of uptime never exits the compositor. -/
theorem C6_respawn_policy (now : Int) (s : RespawnState) (times : List Int) :
    (¬ now - s.deathstamp > 30000 →
       (respawn_desktop_shell_process now s).state =
         RespawnState.mk s.deathstamp (s.deathcount + 1)) ∧
    (now - s.deathstamp > 30000 →
       (respawn_desktop_shell_process now s).state = RespawnState.mk now 1) ∧
    ((respawn_desktop_shell_process now s).state.deathcount > 5 →
       (respawn_desktop_shell_process now s).respawned = false ∧
       (respawn_desktop_shell_process now s).gave_up = true) ∧
    ((respawn_desktop_shell_process now s).state.deathcount ≤ 5 →
       (respawn_desktop_shell_process now s).respawned = true ∧
       (respawn_desktop_shell_process now s).gave_up = false) ∧
    (s.deathcount = 0 → (∀ t ∈ times, t - s.deathstamp ≤ 30000) →
       (respawn_run times s).2 ≤ 5) ∧
    (∀ sd co ns ss, sd = false → ¬ ns - ss < 30 →
       (desktop_shell_client_destroy sd co ns ss now s).exited = false) := by
  refine ⟨fun hc => ?_, fun hc => ?_, fun hcount => ?_, fun hcount => ?_,
          fun hzero hwin => ?_, fun sd co ns ss hsd hns => ?_⟩
  · simp [respawn_desktop_shell_process, hc]
    split <;> rfl
  · simp [respawn_desktop_shell_process, hc]
  · simp only [respawn_desktop_shell_process] at hcount ⊢
    split_ifs at hcount ⊢ <;> simp_all
  · simp only [respawn_desktop_shell_process] at hcount ⊢
    split_ifs at hcount ⊢ <;> simp_all <;> omega
  · have hb := respawn_fold_bound times s 0 hwin
    rw [hzero] at hb
    unfold respawn_run
    omega
  · subst hsd
    cases co <;>
      simp [desktop_shell_client_destroy,
            check_desktop_shell_crash_too_early, hns]

/-- Witness for C6: from a fresh window at stamp 0, six crashes at times
1..6 yield exactly 5 relaunches (so at most 5), the first crash only
increments the counter, and a crash at 31 seconds of uptime does not exit
the compositor. -/
theorem C6_respawn_policy_witness :
    (¬ (1 : Int) - (RespawnState.mk 0 0).deathstamp > 30000) ∧
    (respawn_desktop_shell_process 1 (RespawnState.mk 0 0)).state =
      RespawnState.mk (RespawnState.mk 0 0).deathstamp
        ((RespawnState.mk 0 0).deathcount + 1) ∧
    (RespawnState.mk 0 0).deathcount = 0 ∧
    (∀ t ∈ [(1 : Int), 2, 3, 4, 5, 6],
       t - (RespawnState.mk 0 0).deathstamp ≤ 30000) ∧
    (respawn_run [1, 2, 3, 4, 5, 6] (RespawnState.mk 0 0)).2 ≤ 5 ∧
    (respawn_run [1, 2, 3, 4, 5, 6] (RespawnState.mk 0 0)).2 = 5 ∧
    (desktop_shell_client_destroy false true 31 0 1
       (RespawnState.mk 0 0)).exited = false := by
  have h := C6_respawn_policy 1 (RespawnState.mk 0 0) [1, 2, 3, 4, 5, 6]
  refine ⟨by decide, h.1 (by decide), rfl, by decide,
          h.2.2.2.2.1 rfl (by decide), by decide,
          h.2.2.2.2.2 false true 31 0 rfl (by decide)⟩

/-- Claim C1 (amended): when the destroyed focused surface is its own main
surface, the focus state re-targets to the first eligible view of the
workspace layer (skipping focus-overlay views, views of the destroyed
main surface, and views without a shell surface), clearing its surface
pointer before activating; with no eligible view it is removed from its
list and freed. When the destroyed focus was a sub-surface, the main
surface's default view is activated instead (or, lacking one, the state is
freed). In every case the focus state never retains a pointer to the
destroyed surface: it is freed, or its pointer is cleared and the
activated target belongs to a different surface. -/
theorem C1_focus_retarget (kf ms : Nat) (layer : List LayerView)
    (mdv : Bool) :
    (kf = ms →
       ((∃ l1 v l2, layer = l1 ++ v :: l2 ∧
           focus_candidate_eligible ms v = true ∧
           (∀ u ∈ l1, focus_candidate_eligible ms u = false) ∧
           focus_state_surface_destroy kf ms layer mdv =
             ⟨Option.some (NextTarget.layerView v), true, false, false⟩) ∨
        ((∀ v ∈ layer, focus_candidate_eligible ms v = false) ∧
         focus_state_surface_destroy kf ms layer mdv =
           ⟨Option.none, false, true, true⟩))) ∧
    (kf ≠ ms →
       (mdv = true →
          focus_state_surface_destroy kf ms layer mdv =
            ⟨Option.some (NextTarget.mainDefaultView ms), true, false,
             false⟩) ∧
       (mdv = false →
          focus_state_surface_destroy kf ms layer mdv =
            ⟨Option.none, false, true, true⟩)) ∧
    ((focus_state_surface_destroy kf ms layer mdv).freed = true ∨
     ((focus_state_surface_destroy kf ms layer mdv).keyboard_focus_cleared =
        true ∧
      ∀ t, (focus_state_surface_destroy kf ms layer mdv).activated =
             Option.some t → NextTarget.surfaceId t ≠ kf)) := by
  by_cases hk : kf = ms
  · subst hk
    cases hscan : layer.find? (focus_candidate_eligible kf) with
    | none =>
      have hall := List.find?_eq_none.mp hscan
      have hres : focus_state_surface_destroy kf kf layer mdv =
          ⟨Option.none, false, true, true⟩ := by
        simp [focus_state_surface_destroy, hscan]
      refine ⟨fun _ => Or.inr ⟨fun v hv => ?_, hres⟩,
              fun hne => absurd rfl hne, ?_⟩
      · have := hall v hv
        simpa using this
      · rw [hres]
        exact Or.inl rfl
    | some v =>
      obtain ⟨hpv, l1, l2, heq, hprev⟩ := List.find?_eq_some.mp hscan
      have hres : focus_state_surface_destroy kf kf layer mdv =
          ⟨Option.some (NextTarget.layerView v), true, false, false⟩ := by
        simp [focus_state_surface_destroy, hscan]
      have hne_kf : v.surfaceId ≠ kf := by
        simp [focus_candidate_eligible] at hpv
        exact hpv.1.1
      refine ⟨fun _ => Or.inl ⟨l1, v, l2, heq, hpv, fun u hu => ?_, hres⟩,
              fun hne => absurd rfl hne, ?_⟩
      · have := hprev u hu
        simpa using this
      · rw [hres]
        refine Or.inr ⟨rfl, fun t ht => ?_⟩
        have ht2 : NextTarget.layerView v = t := by
          simpa using ht
        rw [← ht2]
        simpa [NextTarget.surfaceId] using hne_kf
  · have hk2 : ms ≠ kf := fun h => hk h.symm
    cases mdv with
    | false =>
      have hres : focus_state_surface_destroy kf ms layer false =
          ⟨Option.none, false, true, true⟩ := by
        simp [focus_state_surface_destroy, hk2]
      refine ⟨fun h => absurd h hk, fun _ => ⟨fun h => (nomatch h), fun _ => hres⟩, ?_⟩
      rw [hres]
      exact Or.inl rfl
    | true =>
      have hres : focus_state_surface_destroy kf ms layer true =
          ⟨Option.some (NextTarget.mainDefaultView ms), true, false,
           false⟩ := by
        simp [focus_state_surface_destroy, hk2]
      refine ⟨fun h => absurd h hk, fun _ => ⟨fun _ => hres, fun h => (nomatch h)⟩, ?_⟩
      rw [hres]
      refine Or.inr ⟨rfl, fun t ht => ?_⟩
      have ht2 : NextTarget.mainDefaultView ms = t := by
        simpa using ht
      rw [← ht2]
      simpa [NextTarget.surfaceId] using hk2

/-- Witness for C1 (amended): the destroyed focus is a main surface (id 5)
and the workspace layer holds one eligible candidate view (surface 9). -/
theorem C1_focus_retarget_witness :
    (∃ l1 v l2,
        ([(⟨9, false, true⟩ : LayerView)] : List LayerView) =
          l1 ++ v :: l2 ∧
        focus_candidate_eligible 5 v = true ∧
        (∀ u ∈ l1, focus_candidate_eligible 5 u = false) ∧
        focus_state_surface_destroy 5 5 [⟨9, false, true⟩] false =
          ⟨Option.some (NextTarget.layerView v), true, false, false⟩) ∨
    ((∀ v ∈ ([(⟨9, false, true⟩ : LayerView)] : List LayerView),
        focus_candidate_eligible 5 v = false) ∧
     focus_state_surface_destroy 5 5 [⟨9, false, true⟩] false =
       ⟨Option.none, false, true, true⟩) :=
  (C1_focus_retarget 5 5 [⟨9, false, true⟩] false).1 rfl

/-- Counterexample to claim C1 as stated: the destroyed focused surface 1
is a sub-surface of main surface 2, and the workspace layer holds an
eligible view of surface 3 — the claim demands re-targeting to that next
eligible view, but the code activates the main surface's default view
(surface 2) instead. -/
theorem C1_focus_retarget_counterexample :
    focus_candidate_eligible 2 ⟨3, false, true⟩ = true ∧
    focus_state_surface_destroy 1 2 [⟨3, false, true⟩] true =
      ⟨Option.some (NextTarget.mainDefaultView 2), true, false, false⟩ ∧
    NextTarget.mainDefaultView 2 ≠ NextTarget.layerView ⟨3, false, true⟩ := by
  decide

theorem unset_one_parent_none (i : Nat) (s : DSurf)
    (h : s.parent = Option.none) :
    unset_relative_to_one i s = s := by
  simp [unset_relative_to_one, h]

theorem fold_unset_one_cleared (ids : List Nat) (s : DSurf)
    (h : s.parent = Option.none) :
    ids.foldl (fun x i => unset_relative_to_one i x) s = s := by
  induction ids with
  | nil => rfl
  | cons i ids ih =>
    rw [List.foldl_cons, unset_one_parent_none i s h]
    exact ih

theorem fold_unset_one_mem (ids : List Nat) : ∀ (s : DSurf),
    s.id ∈ ids → s.parent ≠ Option.none →
    ids.foldl (fun x i => unset_relative_to_one i x) s =
      { s with parent := Option.none, use_geometry := false, views := [] } := by
  induction ids with
  | nil =>
    intro s h _
    exact absurd h (List.not_mem_nil s.id)
  | cons i ids ih =>
    intro s hm hp
    rw [List.foldl_cons]
    by_cases hid : s.id = i
    · have h1 : unset_relative_to_one i s =
          { s with parent := Option.none, use_geometry := false,
                   views := [] } := by
        simp [unset_relative_to_one, hid, hp]
      rw [h1]
      exact fold_unset_one_cleared ids _ rfl
    · have h1 : unset_relative_to_one i s = s := by
        simp [unset_relative_to_one, hid]
      rw [h1]
      refine ih s ?_ hp
      rcases List.mem_cons.mp hm with h | h
      · exact absurd h hid
      · exact h

theorem foldl_unset_map (ids : List Nat) : ∀ (st : List DSurf),
    ids.foldl weston_desktop_surface_unset_relative_to st =
      st.map (fun s => ids.foldl (fun x i => unset_relative_to_one i x) s) := by
  induction ids with
  | nil =>
    intro st
    simp
  | cons i ids ih =>
    intro st
    rw [List.foldl_cons, ih (weston_desktop_surface_unset_relative_to st i)]
    simp [weston_desktop_surface_unset_relative_to, List.map_map,
          Function.comp, List.foldl_cons]

/-- Claim C8 (amended): destroying a desktop surface removes its record
(and with it all of its views), and unlinks each of its children by
clearing the child's parent link to none — not by re-parenting it to the
grandparent — destroying the child's views in the process. -/
theorem C8_destroy_unlinks (st : List DSurf) (sid : Nat) :
    (∀ s2 ∈ weston_desktop_surface_destroy st sid, s2.id ≠ sid) ∧
    (∀ s ∈ st, s.parent = Option.some sid → s.id ≠ sid →
       ∃ s2 ∈ weston_desktop_surface_destroy st sid,
         s2.id = s.id ∧ s2.parent = Option.none ∧ s2.views = []) := by
  constructor
  · intro s2 hs2
    unfold weston_desktop_surface_destroy at hs2
    have := List.mem_filter.mp hs2
    simpa using this.2
  · intro s hs hp hid
    have hself : unset_relative_to_one sid s = s := by
      simp [unset_relative_to_one, hid]
    have hs_in_st1 : s ∈ weston_desktop_surface_unset_relative_to st sid := by
      have hmem := List.mem_map_of_mem (unset_relative_to_one sid) hs
      rwa [hself] at hmem
    have hchild : s.id ∈
        ((weston_desktop_surface_unset_relative_to st sid).filter
          (fun x => x.parent = Option.some sid)).map DSurf.id := by
      exact List.mem_map_of_mem DSurf.id
        (List.mem_filter.mpr ⟨hs_in_st1, by simp [hp]⟩)
    have hpne : s.parent ≠ Option.none := by
      rw [hp]
      exact Option.some_ne_none sid
    have hclear := fold_unset_one_mem
      (((weston_desktop_surface_unset_relative_to st sid).filter
        (fun x => x.parent = Option.some sid)).map DSurf.id) s hchild hpne
    refine ⟨{ s with parent := Option.none, use_geometry := false,
                     views := [] }, ?_, rfl, rfl, rfl⟩
    unfold weston_desktop_surface_destroy
    refine List.mem_filter.mpr ⟨?_, by simp [hid]⟩
    rw [foldl_unset_map]
    exact List.mem_map.mpr ⟨s, hs_in_st1, hclear⟩

/-- Witness for C8 (amended): in the grandparent-parent-child chain
`c8_table`, destroying surface 1 leaves a record for its child 2 with
parent cleared and views destroyed. -/
theorem C8_destroy_unlinks_witness :
    ((⟨2, Option.some 1, true, [12]⟩ : DSurf) ∈ c8_table) ∧
    (⟨2, Option.some 1, true, [12]⟩ : DSurf).parent = Option.some 1 ∧
    ((⟨2, Option.some 1, true, [12]⟩ : DSurf).id ≠ 1) ∧
    (∃ s2 ∈ weston_desktop_surface_destroy c8_table 1,
       s2.id = (⟨2, Option.some 1, true, [12]⟩ : DSurf).id ∧
       s2.parent = Option.none ∧ s2.views = []) := by
  refine ⟨by decide, rfl, by decide, ?_⟩
  exact (C8_destroy_unlinks c8_table 1).2 ⟨2, Option.some 1, true, [12]⟩
    (by decide) rfl (by decide)

/-- Counterexample to claim C8 as stated: destroying surface 1 (child of
grandparent 0, parent of surface 2) leaves surface 2 with no parent at
all — the claim's predicted re-parenting to the grandparent (parent =
some 0) does not happen. -/
theorem C8_destroy_unlinks_counterexample :
    weston_desktop_surface_destroy c8_table 1 =
      [⟨0, Option.none, false, [10]⟩, ⟨2, Option.none, false, []⟩] ∧
    ((Option.none : Option Nat) ≠ Option.some 0) := by
  decide

end Weston
